import Mathlib

/-
Shallow embedding of the Flowgic logistics financial / status workflow.

Sources embedded:
  - `src/logistics/models.py`: the `Financial.save` derivation (lines 432-448),
    the declared status / event-type / payment-status enums, and the
    one-to-one `Financial.order` field (lines 370-377).
  - `src/logistics/views.py`: `update_payment_status` (124-197),
    `update_order_status` (201-252), `update_financials` (257-318) and the
    dispatcher path of `edit_order` (91-120).

Modelling conventions:
  - Python `decimal.Decimal` values are modelled as rationals; every
    arithmetic step of the source is exact in `Decimal`, hence exact in `ℚ`.
  - Persisting a `DecimalField(..., decimal_places=2)` quantizes the written
    value to two decimal places with ROUND_HALF_EVEN: Django's write path
    (`DecimalField.get_db_prep_save` -> `adapt_decimalfield_value` ->
    `backends.utils.format_number`) quantizes with the default decimal
    context rounding.  `Financial.store` applies this to the money columns.
  - `CharField(choices=...)` does not enforce its choices on save; statuses
    and event types are therefore plain strings here, with the declared
    choice lists embedded separately.
  - `auto_now` timestamps are modelled by an explicit `now : Nat` argument
    written into `updated_at` whenever the source calls `save()`.
-/

set_option maxRecDepth 4000

/-- Round a rational to an integer, ties to the even neighbour — the
ROUND_HALF_EVEN rule of Python's default decimal context. -/
def roundHalfEven (q : ℚ) : ℤ :=
  if Int.fract q < 1 / 2 then ⌊q⌋
  else if 1 / 2 < Int.fract q then ⌊q⌋ + 1
  else if Even ⌊q⌋ then ⌊q⌋ else ⌊q⌋ + 1

/-- Quantize to two decimal places (the declared `decimal_places=2` of every
money column of `Financial` and of `Order.distance_km`), ROUND_HALF_EVEN. -/
def quantize2 (q : ℚ) : ℚ := (roundHalfEven (q * 100) : ℚ) / 100

/-- A value that is already a whole number of hundredths is fixed by
`quantize2` (rounding changes nothing at the declared precision). -/
theorem quantize2_eq_self {q : ℚ} {n : ℤ} (h : q * 100 = (n : ℚ)) :
    quantize2 q = q := by
  unfold quantize2 roundHalfEven
  rw [h, Int.fract_intCast, Int.floor_intCast, if_pos (by norm_num), ← h]
  exact mul_div_cancel_right₀ q (by norm_num)

/-- Evaluation form of `quantize2_eq_self`. -/
theorem quantize2_eval (q r : ℚ) (n : ℤ) (h1 : q = r) (h2 : r * 100 = (n : ℚ)) :
    quantize2 q = r := by
  rw [h1]; exact quantize2_eq_self h2

/-- `Order.Status` choices (models.py lines 125-133). -/
def orderStatusChoices : List String :=
  ["created", "assigned", "loading", "in_transit",
   "delivered", "completed", "cancelled", "delayed"]

/-- `OrderEvent.EventType` choices (models.py lines 257-266). -/
def eventTypeChoices : List String :=
  ["assigned", "loaded", "departed", "temperature_violation", "delivered",
   "document_signed", "status_changed", "payment_updated", "location_update"]

/-- `Financial.PaymentStatus` choices (models.py lines 364-367). -/
def paymentStatusChoices : List String :=
  ["unpaid", "partially_paid", "paid"]

/-- The fields of `Order` (models.py lines 124-231) that the financial and
status workflow reads or writes.  `updated_at` is the `auto_now` column. -/
structure Order where
  id : Nat
  status : String
  distance_km : Option ℚ
  agreed_price : Option ℚ
  driver_id : Option Nat
  vehicle_id : Option Nat
  is_viewed_by_driver : Bool
  updated_at : Nat
deriving DecidableEq, Repr

/-- The JSON written into `Financial.payment_plan` by a partial payment
(views.py lines 169-173). -/
structure PaymentPlan where
  partial_amount : ℚ
  updated_by : String
  updated_at : Nat
deriving DecidableEq, Repr

/-- A row of the `financials` table (models.py lines 363-448). -/
structure Financial where
  order_id : Nat
  client_cost : ℚ
  driver_cost : ℚ
  third_party_cost : Option ℚ
  fuel_expenses : ℚ
  profit : ℚ
  payment_status : String
  payment_plan : Option PaymentPlan
deriving DecidableEq, Repr

/-- `Financial.save` (models.py lines 432-448): recompute `fuel_expenses`
from the linked order's `distance_km` (30 L/100km at 82 per litre; zero when
the distance is null, zero or negative — Python truthiness plus `> 0`), then
recompute `profit = client_cost - driver_cost - (third_party_cost or 0)`.
The caller-assigned `fuel_expenses` is always overwritten. -/
def Financial.save (order : Order) (f : Financial) : Financial :=
  let fuel_expenses : ℚ :=
    match order.distance_km with
    | some distance => if distance ≠ 0 ∧ 0 < distance
        then distance / 100 * 30 * 82 else 0
    | none => 0
  let third_party : ℚ := f.third_party_cost.getD 0
  { f with
    fuel_expenses := fuel_expenses
    profit := f.client_cost - f.driver_cost - third_party }

/-- Persistence of a `Financial` row: each `DecimalField(decimal_places=2)`
column is quantized to two decimal places on write (see header). -/
def Financial.store (f : Financial) : Financial :=
  { f with
    client_cost := quantize2 f.client_cost
    driver_cost := quantize2 f.driver_cost
    third_party_cost := f.third_party_cost.map quantize2
    fuel_expenses := quantize2 f.fuel_expenses
    profit := quantize2 f.profit }

/-- The `event_data` payloads the embedded views write
(views.py lines 159, 174, 236-240, 298-306). -/
inductive EventData where
  | markedAsPaid (user : String)
  | partialPayment (amount : ℚ) (user : String)
  | statusChanged (old_status new_status : String) (user : String)
  | financialsUpdated (old_fuel_expenses new_fuel_expenses
      old_driver_cost new_driver_cost old_profit new_profit : ℚ) (user : String)
deriving DecidableEq, Repr

/-- A row of the `order_events` table (models.py lines 256-296). -/
structure OrderEvent where
  order_id : Nat
  event_type : String
  event_data : EventData
deriving DecidableEq, Repr

/-- The persistent state a request handler touches: the loaded order, the
`financials` table and the `order_events` table for that order (events are
kept newest first, the model's `ordering = ['-created_at']`). -/
structure Db where
  order : Order
  financials : List Financial
  events : List OrderEvent
deriving DecidableEq, Repr

/-- `Financial.objects.get(order=order)`: the row of the one-to-one link. -/
def Db.findFinancial (db : Db) : Option Financial :=
  db.financials.find? (fun f => f.order_id == db.order.id)

/-- UPDATE of the financial row keyed by `order_id`. -/
def Db.writeFinancial (db : Db) (f : Financial) : Db :=
  { db with financials :=
      db.financials.map (fun g => if g.order_id == f.order_id then f else g) }

/-- INSERT into `order_events` (append-only; newest first). -/
def Db.appendEvent (db : Db) (e : OrderEvent) : Db :=
  { db with events := e :: db.events }

/-- A `JsonResponse` of the embedded views: the success payload, or an
error message with its HTTP status code. -/
inductive Resp (α : Type) where
  | success (val : α)
  | failure (error : String) (status : Nat)
deriving DecidableEq, Repr

/-- A POST parameter that is fed to `Decimal(...)`: absent or blank,
present but not a decimal numeral, or a decimal value. -/
inductive DecimalParam where
  | missing
  | malformed
  | value (q : ℚ)
deriving DecidableEq, Repr

/-- `Decimal(request.POST.get(key, default))`: `none` when parsing raises. -/
def DecimalParam.parse : DecimalParam → ℚ → Option ℚ
  | .missing, default_value => some default_value
  | .malformed, _ => none
  | .value q, _ => some q

/-- The `get_or_create` defaults of `update_payment_status`
(views.py lines 144-151): `fuel_expenses` and `third_party_cost` are not in
the defaults dict, so the column default `0.00` and NULL apply
(models.py lines 390-398 and 420-425); `payment_status` defaults to
`unpaid` (models.py lines 406-411). -/
def paymentDefaults (order : Order) : Financial :=
  { order_id := order.id
    client_cost := order.agreed_price.getD 0
    driver_cost := 0
    third_party_cost := none
    fuel_expenses := 0
    profit := 0
    payment_status := "unpaid"
    payment_plan := none }

/-- The `get_or_create` defaults of `update_financials` and `request_detail`
(views.py lines 63-71 and 263-271). -/
def financialsDefaults (order : Order) : Financial :=
  { order_id := order.id
    client_cost := order.agreed_price.getD 0
    driver_cost := 0
    third_party_cost := some 0
    fuel_expenses := 0
    profit := 0
    payment_status := "unpaid"
    payment_plan := none }

/-- `Financial.objects.get_or_create(order=order, defaults=...)`: return the
existing row, or build one from the defaults, run `Financial.save` (Django
calls `save` on create) and insert the stored row.  The returned instance is
the in-memory one, as in the source. -/
def getOrCreateFinancial (db : Db) (defaults : Financial) : Financial × Db :=
  match db.findFinancial with
  | some f => (f, db)
  | none =>
      let f := Financial.save db.order defaults
      (f, { db with financials := db.financials ++ [f.store] })

/-- views.py lines 180-194: `financial.save()`, then a `payment_updated`
event only if `payment_status` changed, then the success JSON carrying the
new payment status. -/
def paymentSaveAndLog (old_status : String) (data : EventData) (f : Financial)
    (db : Db) : Resp String × Db :=
  let db2 := db.writeFinancial (Financial.save db.order f).store
  let db3 := if old_status ≠ f.payment_status
    then db2.appendEvent
      { order_id := db.order.id
        event_type := "payment_updated"
        event_data := data }
    else db2
  (.success f.payment_status, db3)

/-- `update_payment_status` (views.py lines 124-197).  `fully_paid` models
`request.POST.get('fully_paid') == 'true'`; `partial_amount` models the
stripped `partial_amount` parameter.  The lazy `get_or_create` runs before
any validation.  A non-positive partial amount is answered with 400
"Amount must be positive"; a malformed amount raises in `Decimal` and is
answered by the outer `except` with a 500; an absent amount (with
`fully_paid` false) is answered with 400 "No payment data provided". -/
def update_payment_status (user : String) (fully_paid : Bool)
    (partial_amount : DecimalParam) (now : Nat) (db : Db) : Resp String × Db :=
  let fdb := getOrCreateFinancial db (paymentDefaults db.order)
  let financial := fdb.1
  let db1 := fdb.2
  let old_status := financial.payment_status
  if fully_paid then
    paymentSaveAndLog old_status (.markedAsPaid user)
      { financial with payment_status := "paid" } db1
  else
    match partial_amount with
    | .missing => (.failure "No payment data provided" 400, db1)
    | .malformed => (.failure "InvalidOperation" 500, db1)
    | .value amount =>
        if amount ≤ 0 then (.failure "Amount must be positive" 400, db1)
        else
          paymentSaveAndLog old_status (.partialPayment amount user)
            { financial with
              payment_status := "partially_paid"
              payment_plan := some { partial_amount := amount
                                     updated_by := user
                                     updated_at := now } } db1

/-- `update_order_status` (views.py lines 201-252): reject a blank status,
reject a status outside `Order.Status.choices`; when the status actually
changes, save the order (bumping `updated_at`) and append a
`status_changed` event; otherwise answer 400 "Status unchanged" touching
nothing. -/
def update_order_status (user : String) (status_param : String) (now : Nat)
    (db : Db) : Resp String × Db :=
  let new_status := status_param
  if new_status = "" then (.failure "Status is required" 400, db)
  else if new_status ∉ orderStatusChoices then
    (.failure "Invalid status" 400, db)
  else
    let old_status := db.order.status
    if old_status ≠ new_status then
      let order := { db.order with status := new_status, updated_at := now }
      let db2 := Db.appendEvent { db with order := order }
        { order_id := order.id
          event_type := "status_changed"
          event_data := .statusChanged old_status new_status user }
      (.success new_status, db2)
    else (.failure "Status unchanged" 400, db)

/-- `update_financials` (views.py lines 257-318): lazy `get_or_create`, then
parse `fuel_expenses` and `driver_cost` (default '0') and `client_cost`
(default: the current value), apply them, `financial.save()` (which
recomputes `fuel_expenses` and `profit`), and append a `financials_updated`
event only if the provided `fuel_expenses` or `driver_cost` differs from the
old value.  A parse failure raises and is answered with a 400 by the
surrounding `except`. -/
def update_financials (user : String)
    (fuel_param driver_param client_param : DecimalParam) (db : Db) :
    Resp ℚ × Db :=
  let fdb := getOrCreateFinancial db (financialsDefaults db.order)
  let financial := fdb.1
  let db1 := fdb.2
  match fuel_param.parse 0, driver_param.parse 0,
        client_param.parse financial.client_cost with
  | some fuel_expenses, some driver_cost, some client_cost =>
      let old_fuel_expenses := financial.fuel_expenses
      let old_driver_cost := financial.driver_cost
      let old_profit := financial.profit
      let saved := Financial.save db1.order
        { financial with
          client_cost := client_cost
          fuel_expenses := fuel_expenses
          driver_cost := driver_cost }
      let db2 := db1.writeFinancial saved.store
      let db3 :=
        if old_fuel_expenses ≠ fuel_expenses ∨ old_driver_cost ≠ driver_cost
        then db2.appendEvent
          { order_id := db1.order.id
            event_type := "financials_updated"
            event_data := .financialsUpdated old_fuel_expenses fuel_expenses
              old_driver_cost driver_cost old_profit saved.profit user }
        else db2
      (.success saved.profit, db3)
  | _, _, _ => (.failure "InvalidOperation" 400, db1)

/-- The dispatcher path of `edit_order` (views.py lines 91-120) with
`OrderEditForm` (forms.py lines 7-26, fields `driver`, `vehicle`,
`status`): `form.save()` writes the three fields and bumps `updated_at`.
No `OrderEvent` of any type is created on this path. -/
def edit_order (driver_id vehicle_id : Option Nat) (status : String)
    (now : Nat) (db : Db) : Db :=
  { db with order := { db.order with
      driver_id := driver_id
      vehicle_id := vehicle_id
      status := status
      updated_at := now } }

/-- `Financial.objects.create(order=order, ...)`: INSERT of a new row after
running `Financial.save`.  The one-to-one `order` field
(models.py lines 370-377, `unique=True`) makes the storage layer reject a
second row for the same order id with an `IntegrityError`, leaving the
table unchanged. -/
def financialCreate (order : Order) (f : Financial) (db : Db) :
    Option String × Db :=
  if db.financials.any (fun g => g.order_id == order.id) then
    (some "IntegrityError: UNIQUE constraint failed: financials.order_id", db)
  else
    let row := Financial.save order { f with order_id := order.id }
    (none, { db with financials := db.financials ++ [row.store] })

/-! ### Concrete fixtures used by the witnesses and counterexamples -/

/-- An order with no recorded distance. -/
def order1 : Order :=
  { id := 1
    status := "created"
    distance_km := none
    agreed_price := some 10000
    driver_id := none
    vehicle_id := none
    is_viewed_by_driver := false
    updated_at := 0 }

/-- An order with `distance_km = 700.00`. -/
def order700 : Order :=
  { order1 with status := "in_transit", distance_km := some 700 }

/-- The Financial of the spec's profit scenario: client_cost 10000.00,
driver_cost 3000.00, caller-assigned fuel_expenses 2000.00. -/
def c1Financial : Financial :=
  { order_id := 1
    client_cost := 10000
    driver_cost := 3000
    third_party_cost := none
    fuel_expenses := 2000
    profit := 0
    payment_status := "unpaid"
    payment_plan := none }

/-- A one-order database with no financial row and no events. -/
def c3Db : Db := { order := order1, financials := [], events := [] }

/-- The database after a first successful `Financial.objects.create`. -/
def c9Db : Db := (financialCreate order1 c1Financial c3Db).2

/-- The stored financial row the cost-update scenarios start from:
client_cost 10000.00, driver_cost 3000.00, fuel 0 (no distance),
profit 7000.00 as `Financial.save` computed it. -/
def c4Financial : Financial :=
  { order_id := 1
    client_cost := 10000
    driver_cost := 3000
    third_party_cost := none
    fuel_expenses := 0
    profit := 7000
    payment_status := "unpaid"
    payment_plan := none }

/-- A one-order database holding `c4Financial` and no events. -/
def c4Db : Db := { order := order1, financials := [c4Financial], events := [] }

/-- The three caller-provided figures as `update_financials` applies them
(views.py lines 282, 292-293). -/
def applyCosts (f : Financial) (cq fq dq : ℚ) : Financial :=
  { f with client_cost := cq, fuel_expenses := fq, driver_cost := dq }

/-! ### Small projection facts (all definitional) -/

theorem Financial.save_order_id (o : Order) (f : Financial) :
    (Financial.save o f).order_id = f.order_id := rfl

theorem Financial.save_payment_status (o : Order) (f : Financial) :
    (Financial.save o f).payment_status = f.payment_status := rfl

theorem Financial.store_order_id (f : Financial) :
    f.store.order_id = f.order_id := rfl

theorem Financial.store_payment_status (f : Financial) :
    f.store.payment_status = f.payment_status := rfl

theorem Db.writeFinancial_order (db : Db) (f : Financial) :
    (db.writeFinancial f).order = db.order := rfl

theorem Db.writeFinancial_events (db : Db) (f : Financial) :
    (db.writeFinancial f).events = db.events := rfl

theorem Db.appendEvent_order (db : Db) (e : OrderEvent) :
    (db.appendEvent e).order = db.order := rfl

theorem Db.appendEvent_financials (db : Db) (e : OrderEvent) :
    (db.appendEvent e).financials = db.financials := rfl

/-- Quantizing zero is zero. -/
theorem quantize2_zero : quantize2 0 = 0 := quantize2_eq_self (n := 0) (by norm_num)

/-- Replacing the row keyed by `order_id` makes the keyed lookup return the
replacement (the UPDATE/SELECT round trip used below). -/
theorem find?_replace (l : List Financial) (tgt : Nat) (new : Financial)
    (hnew : new.order_id = tgt)
    (h : (l.find? (fun g => g.order_id == tgt)).isSome = true) :
    (l.map (fun g => if g.order_id == new.order_id then new else g)).find?
      (fun g => g.order_id == tgt) = some new := by
  induction l with
  | nil => simp at h
  | cons a t ih =>
      rw [List.map_cons]
      by_cases ha : a.order_id = tgt
      · have hrepl : (if a.order_id == new.order_id then new else a) = new := by
          rw [if_pos]; simp [hnew, ha]
        rw [hrepl]
        exact List.find?_cons_of_pos _ (by simp [hnew])
      · have hkeep : (if a.order_id == new.order_id then new else a) = a := by
          rw [if_neg]; simp [hnew, ha]
        rw [hkeep, List.find?_cons_of_neg _ (by simp [ha])]
        rw [List.find?_cons_of_neg _ (by simp [ha])] at h
        exact ih h

/-- `Db` version of `find?_replace`. -/
theorem findFinancial_writeFinancial (db : Db) (new : Financial)
    (hnew : new.order_id = db.order.id)
    (h : db.findFinancial.isSome = true) :
    (db.writeFinancial new).findFinancial = some new :=
  find?_replace db.financials db.order.id new hnew h

/-- C1: the spec claims `profit = client_cost − fuel_expenses − driver_cost`
(and 5000.00 / 4000.00 in its scenario), and the repository's own tests
assert exactly that (tests.py lines 28-41 and 87-104); but `Financial.save`
(models.py line 447) computes `client_cost − driver_cost − third_party`,
never subtracting fuel: the scenario's saved profit is 7000.00, and 6000.00
after updating driver_cost to 4000.00 — a divergence of the code from the
repository's own test suite. -/
theorem C1_profit_formula_code_bug :
    ((Financial.save order1 c1Financial).store).profit = 7000 ∧
    ((Financial.save order1
      { (Financial.save order1 c1Financial).store with
        driver_cost := 4000 }).store).profit = 6000 ∧
    ((Financial.save order1 c1Financial).store).profit ≠ 5000 ∧
    ((Financial.save order1
      { (Financial.save order1 c1Financial).store with
        driver_cost := 4000 }).store).profit ≠ 4000 := by
  have h10 : quantize2 10000 = 10000 :=
    quantize2_eval 10000 10000 1000000 rfl (by norm_num)
  have h1 : ((Financial.save order1 c1Financial).store).profit = 7000 := by
    simp [Financial.save, Financial.store, order1, c1Financial]
    exact quantize2_eval _ 7000 700000 (by norm_num) (by norm_num)
  have h2 : ((Financial.save order1
      { (Financial.save order1 c1Financial).store with
        driver_cost := 4000 }).store).profit = 6000 := by
    simp [Financial.save, Financial.store, order1, c1Financial, h10]
    exact quantize2_eval _ 6000 600000 (by norm_num) (by norm_num)
  refine ⟨h1, h2, ?_, ?_⟩
  · rw [h1]; norm_num
  · rw [h2]; norm_num

/-- C2: the stored `fuel_expenses` is a function of the linked order's
`distance_km` alone — the quantified `f` shows any caller-assigned value is
overwritten: `round((distance/100)*30*82, 2)` for a positive distance, and
0.00 for a null, zero or negative distance (no error in either case: the
function is total). -/
theorem C2_fuel_expenses_from_distance (f : Financial) (order : Order) :
    (∀ d : ℚ, order.distance_km = some d → 0 < d →
      ((Financial.save order f).store).fuel_expenses =
        quantize2 (d / 100 * 30 * 82)) ∧
    (order.distance_km = none →
      ((Financial.save order f).store).fuel_expenses = 0) ∧
    (∀ d : ℚ, order.distance_km = some d → d ≤ 0 →
      ((Financial.save order f).store).fuel_expenses = 0) := by
  refine ⟨?_, ?_, ?_⟩
  · intro d hd hpos
    simp [Financial.save, Financial.store, hd, hpos, hpos.ne']
  · intro h
    simp [Financial.save, Financial.store, h, quantize2_zero]
  · intro d hd hle
    have hneg : ¬(d ≠ 0 ∧ 0 < d) := fun hc => absurd hc.2 (not_lt.mpr hle)
    simp [Financial.save, Financial.store, hd, hneg, quantize2_zero]

/-- C2 witness: distance 700.00 stores fuel 17220.00 (whatever fuel value
the caller had assigned), and a null distance stores 0.00. -/
theorem C2_fuel_expenses_from_distance_witness :
    ((Financial.save order700
      { c1Financial with fuel_expenses := 999 }).store).fuel_expenses = 17220 ∧
    ((Financial.save order1
      { c1Financial with fuel_expenses := 999 }).store).fuel_expenses = 0 := by
  constructor
  · have h := (C2_fuel_expenses_from_distance
      { c1Financial with fuel_expenses := 999 } order700).1 700 rfl
      (by norm_num)
    rw [h]; exact quantize2_eval _ 17220 1722000 (by norm_num) (by norm_num)
  · exact (C2_fuel_expenses_from_distance
      { c1Financial with fuel_expenses := 999 } order1).2.1 rfl

/-- C3: `update_order_status` with `new_status` equal to the order's current
(valid) status answers 400 "Status unchanged" — a reported no-op distinct
from success — and returns the state untouched: no event row, no order
write (hence no `updated_at` bump). -/
theorem C3_same_status_unchanged (user s : String) (now : Nat) (db : Db)
    (hcur : db.order.status = s) (hvalid : s ∈ orderStatusChoices) :
    update_order_status user s now db = (.failure "Status unchanged" 400, db) := by
  have hne : s ≠ "" := by
    rintro rfl
    simp [orderStatusChoices] at hvalid
  unfold update_order_status
  rw [if_neg hne, if_neg (not_not_intro hvalid)]
  simp [hcur]

/-- C3 witness: transitioning a `created` order to `created`. -/
theorem C3_same_status_unchanged_witness :
    update_order_status "dispatcher" "created" 5 c3Db =
      (.failure "Status unchanged" 400, c3Db) :=
  C3_same_status_unchanged "dispatcher" "created" 5 c3Db rfl (by decide)

/-- C5 (amended): the dispatcher `edit_order` path updates the driver,
vehicle and status fields and persists the order, but appends no
`OrderEvent` of any type — whether or not the fields changed. -/
theorem C5_assign_appends_no_event (driver vehicle : Option Nat)
    (status : String) (now : Nat) (db : Db) :
    (edit_order driver vehicle status now db).events = db.events ∧
    (edit_order driver vehicle status now db).financials = db.financials ∧
    (edit_order driver vehicle status now db).order =
      { db.order with
        driver_id := driver
        vehicle_id := vehicle
        status := status
        updated_at := now } :=
  ⟨rfl, rfl, rfl⟩

/-- C5 counterexample: an assignment that changes the driver field appends
no `OrderEvent` at all (the claim demands exactly one `assigned` event). -/
theorem C5_assign_no_event_counterexample :
    (edit_order (some 7) (some 9) "assigned" 5 c3Db).order.driver_id = some 7 ∧
    c3Db.order.driver_id ≠ some 7 ∧
    (edit_order (some 7) (some 9) "assigned" 5 c3Db).events = [] := by
  refine ⟨rfl, ?_, rfl⟩
  simp [c3Db, order1]

/-- C8: `update_order_status` with a status outside the declared enum is
rejected with a 400 validation error ("Status is required" for the blank
string, "Invalid status" otherwise) and the state — order status and event
log — is returned untouched. -/
theorem C8_invalid_status_rejected (user s : String) (now : Nat) (db : Db)
    (h : s ∉ orderStatusChoices) :
    update_order_status user s now db =
      (.failure (if s = "" then "Status is required" else "Invalid status") 400,
        db) := by
  by_cases hs : s = ""
  · unfold update_order_status
    rw [if_pos hs, if_pos hs]
  · unfold update_order_status
    rw [if_neg hs, if_pos h, if_neg hs]

/-- C8 witness: the unknown status `shipped` is rejected, state unchanged. -/
theorem C8_invalid_status_rejected_witness :
    update_order_status "u" "shipped" 3 c3Db =
      (.failure "Invalid status" 400, c3Db) := by
  have h := C8_invalid_status_rejected "u" "shipped" 3 c3Db (by decide)
  simpa using h

/-- C9: with a financial row already present for the order id, a second
`Financial.objects.create` for the same order fails with an IntegrityError
from the one-to-one uniqueness, and the table is returned unchanged. -/
theorem C9_financial_unique_per_order (db : Db) (order : Order)
    (f g : Financial) (hg : g ∈ db.financials) (hid : g.order_id = order.id) :
    financialCreate order f db =
      (some "IntegrityError: UNIQUE constraint failed: financials.order_id",
        db) := by
  unfold financialCreate
  rw [if_pos]
  exact List.any_eq_true.mpr ⟨g, hg, by simp [hid]⟩

/-- C9 witness: the first create succeeds; the second create for the same
order fails and leaves the table as it was. -/
theorem C9_financial_unique_per_order_witness :
    (financialCreate order1 c1Financial c3Db).1 = none ∧
    financialCreate order1 { c1Financial with client_cost := 20000 } c9Db =
      (some "IntegrityError: UNIQUE constraint failed: financials.order_id",
        c9Db) := by
  constructor
  · rfl
  · refine C9_financial_unique_per_order c9Db order1 _
      ((Financial.save order1 { c1Financial with order_id := order1.id }).store)
      ?_ rfl
    rw [show c9Db.financials =
      [(Financial.save order1 { c1Financial with order_id := order1.id }).store]
      from rfl]
    exact List.mem_singleton_self _

/-- Appending an event leaves the financial lookup unchanged. -/
theorem Db.findFinancial_appendEvent (db : Db) (e : OrderEvent) :
    (db.appendEvent e).findFinancial = db.findFinancial := rfl

/-- `get_or_create` when the row exists: returns it, state untouched. -/
theorem getOrCreateFinancial_of_found {db : Db} {f : Financial}
    (hf : db.findFinancial = some f) (d : Financial) :
    getOrCreateFinancial db d = (f, db) := by
  unfold getOrCreateFinancial; rw [hf]

/-- `get_or_create` when no row exists: saves and inserts the defaults. -/
theorem getOrCreateFinancial_of_none {db : Db} (hf : db.findFinancial = none)
    (d : Financial) :
    getOrCreateFinancial db d =
      (Financial.save db.order d,
        { db with financials :=
            db.financials ++ [(Financial.save db.order d).store] }) := by
  unfold getOrCreateFinancial; rw [hf]

/-- A found financial row carries the order's id. -/
theorem findFinancial_order_id {db : Db} {f : Financial}
    (hf : db.findFinancial = some f) : f.order_id = db.order.id := by
  simpa using List.find?_some hf

/-- C4 (amended): `update_financials` applies the provided `client_cost`,
`driver_cost` and `fuel_expenses`, recomputes the derived fields via
`Financial.save`, persists, and appends one `financials_updated` event if
and only if the provided `fuel_expenses` or `driver_cost` differs from the
stored value — a change to `client_cost` (and hence `profit`) alone appends
no event. -/
theorem C4_event_iff_fuel_or_driver_changed (user : String) (fq dq cq : ℚ)
    (db : Db) (f : Financial) (hf : db.findFinancial = some f) :
    ((update_financials user (.value fq) (.value dq) (.value cq) db).1 =
      .success (Financial.save db.order (applyCosts f cq fq dq)).profit) ∧
    ((update_financials user (.value fq) (.value dq) (.value cq) db).2.order =
      db.order) ∧
    ((update_financials user (.value fq) (.value dq) (.value cq)
        db).2.findFinancial =
      some (Financial.save db.order (applyCosts f cq fq dq)).store) ∧
    ((update_financials user (.value fq) (.value dq) (.value cq) db).2.events =
      if f.fuel_expenses ≠ fq ∨ f.driver_cost ≠ dq
      then { order_id := db.order.id
             event_type := "financials_updated"
             event_data := EventData.financialsUpdated f.fuel_expenses fq
               f.driver_cost dq f.profit
               (Financial.save db.order (applyCosts f cq fq dq)).profit
               user } :: db.events
      else db.events) := by
  have hid : f.order_id = db.order.id := findFinancial_order_id hf
  have hsome : db.findFinancial.isSome = true := by rw [hf]; rfl
  have hw := findFinancial_writeFinancial db
    (Financial.save db.order (applyCosts f cq fq dq)).store
    (by rw [Financial.store_order_id, Financial.save_order_id]; exact hid)
    hsome
  simp only [update_financials, getOrCreateFinancial_of_found hf,
    DecimalParam.parse]
  refine ⟨rfl, ?_, ?_, ?_⟩
  · split <;> rfl
  · split
    · rw [Db.findFinancial_appendEvent]; exact hw
    · exact hw
  · split <;> rfl

/-- C4 witness: a call changing `driver_cost` appends exactly one event. -/
theorem C4_event_iff_fuel_or_driver_changed_witness :
    (update_financials "u" (.value 0) (.value 4000) (.value 10000)
      c4Db).2.events.length = 1 := by
  have h := (C4_event_iff_fuel_or_driver_changed "u" 0 4000 10000 c4Db
    c4Financial rfl).2.2.2
  rw [h, if_pos (Or.inr (by norm_num [c4Financial]))]
  rfl

/-- C4 counterexample: a call that changes only `client_cost` (10000.00 to
12345.00, hence also `profit`) appends no event, refuting "…if and only if
any numeric value actually changed". -/
theorem C4_client_cost_change_no_event_counterexample :
    (update_financials "u" (.value 0) (.value 3000) (.value 12345)
      c4Db).2.events = [] ∧
    ((update_financials "u" (.value 0) (.value 3000) (.value 12345)
      c4Db).2.findFinancial).map Financial.client_cost = some 12345 ∧
    (c4Db.findFinancial).map Financial.client_cost = some 10000 ∧
    (12345 : ℚ) ≠ 10000 := by
  have hf : c4Db.findFinancial = some c4Financial := rfl
  refine ⟨?_, ?_, rfl, by norm_num⟩
  · simp only [update_financials, getOrCreateFinancial_of_found hf,
      DecimalParam.parse]
    rw [if_neg (by simp [c4Financial])]
    rfl
  · simp only [update_financials, getOrCreateFinancial_of_found hf,
      DecimalParam.parse]
    rw [if_neg (by simp [c4Financial])]
    rw [findFinancial_writeFinancial c4Db _ rfl rfl]
    simp only [Option.map_some']
    exact congrArg some (quantize2_eval _ 12345 1234500 rfl (by norm_num))

/-- The payment save path always answers with the new payment status. -/
theorem paymentSaveAndLog_resp (old_status : String) (data : EventData)
    (f : Financial) (db : Db) :
    (paymentSaveAndLog old_status data f db).1 = .success f.payment_status := rfl

/-- After the payment save path, the financial row of the order is the
saved and stored instance. -/
theorem paymentSaveAndLog_findFinancial (old_status : String)
    (data : EventData) (f : Financial) (db : Db)
    (hid : f.order_id = db.order.id)
    (hsome : db.findFinancial.isSome = true) :
    (paymentSaveAndLog old_status data f db).2.findFinancial =
      some (Financial.save db.order f).store := by
  have hw := findFinancial_writeFinancial db (Financial.save db.order f).store
    (by rw [Financial.store_order_id, Financial.save_order_id]; exact hid) hsome
  simp only [paymentSaveAndLog]
  split
  · rw [Db.findFinancial_appendEvent]; exact hw
  · exact hw

/-- Branch equation: absent payment data (views.py lines 177-178). -/
theorem update_payment_status_missing (user : String) (now : Nat) (db : Db) :
    update_payment_status user false .missing now db =
      (.failure "No payment data provided" 400,
        (getOrCreateFinancial db (paymentDefaults db.order)).2) := rfl

/-- Branch equation: a malformed amount (views.py lines 162-163 raising,
answered by the outer `except`). -/
theorem update_payment_status_malformed (user : String) (now : Nat) (db : Db) :
    update_payment_status user false .malformed now db =
      (.failure "InvalidOperation" 500,
        (getOrCreateFinancial db (paymentDefaults db.order)).2) := rfl

/-- Branch equation: a parsed partial amount (views.py lines 164-174). -/
theorem update_payment_status_value (user : String) (q : ℚ) (now : Nat)
    (db : Db) :
    update_payment_status user false (.value q) now db =
      (if q ≤ 0 then
        (.failure "Amount must be positive" 400,
          (getOrCreateFinancial db (paymentDefaults db.order)).2)
      else
        paymentSaveAndLog
          (getOrCreateFinancial db (paymentDefaults db.order)).1.payment_status
          (.partialPayment q user)
          { (getOrCreateFinancial db (paymentDefaults db.order)).1 with
            payment_status := "partially_paid"
            payment_plan := some { partial_amount := q
                                   updated_by := user
                                   updated_at := now } }
          (getOrCreateFinancial db (paymentDefaults db.order)).2) := rfl

/-- Branch equation: `fully_paid` (views.py lines 156-159). -/
theorem update_payment_status_full (user : String) (pa : DecimalParam)
    (now : Nat) (db : Db) :
    update_payment_status user true pa now db =
      paymentSaveAndLog
        (getOrCreateFinancial db (paymentDefaults db.order)).1.payment_status
        (.markedAsPaid user)
        { (getOrCreateFinancial db (paymentDefaults db.order)).1 with
          payment_status := "paid" }
        (getOrCreateFinancial db (paymentDefaults db.order)).2 := rfl

/-- On any failure answer, `update_payment_status` returns exactly the
post-`get_or_create` state. -/
theorem update_payment_status_fail_state (user : String) (fp : Bool)
    (pa : DecimalParam) (now : Nat) (db : Db) (er : String) (code : Nat)
    (h : (update_payment_status user fp pa now db).1 = .failure er code) :
    (update_payment_status user fp pa now db).2 =
      (getOrCreateFinancial db (paymentDefaults db.order)).2 := by
  cases fp
  · cases pa with
    | missing => rfl
    | malformed => rfl
    | value q =>
        by_cases hq : q ≤ 0
        · rw [update_payment_status_value, if_pos hq]
        · rw [update_payment_status_value, if_neg hq,
            paymentSaveAndLog_resp] at h
          exact Resp.noConfusion h
  · rw [update_payment_status_full, paymentSaveAndLog_resp] at h
    exact Resp.noConfusion h

/-- On any failure answer, `update_financials` returns exactly the
post-`get_or_create` state. -/
theorem update_financials_fail_state (user : String) (fu dr cl : DecimalParam)
    (db : Db) (er : String) (code : Nat)
    (h : (update_financials user fu dr cl db).1 = .failure er code) :
    (update_financials user fu dr cl db).2 =
      (getOrCreateFinancial db (financialsDefaults db.order)).2 := by
  cases fu <;> cases dr <;> cases cl <;>
    first
      | rfl
      | exact Resp.noConfusion h

/-- C6: `update_payment_status` rejects a partial payment with amount ≤ 0
with 400 "Amount must be positive"; with `fully_paid` the call always
succeeds with payment_status `paid` — whatever partial amount accompanies
it and whatever the prior status — and the stored row says `paid`. -/
theorem C6_apply_payment (user : String) (now : Nat) (db : Db) :
    (∀ amount : ℚ, amount ≤ 0 →
      (update_payment_status user false (.value amount) now db).1 =
        .failure "Amount must be positive" 400) ∧
    (∀ pa : DecimalParam,
      (update_payment_status user true pa now db).1 = .success "paid" ∧
      ((update_payment_status user true pa now db).2.findFinancial).map
        Financial.payment_status = some "paid") := by
  constructor
  · intro amount h
    rw [update_payment_status_value, if_pos h]
  · intro pa
    refine ⟨rfl, ?_⟩
    cases hfind : db.findFinancial with
    | some f =>
        rw [update_payment_status_full, getOrCreateFinancial_of_found hfind]
        dsimp only
        rw [paymentSaveAndLog_findFinancial f.payment_status
          (.markedAsPaid user) { f with payment_status := "paid" } db
          (by have hid := findFinancial_order_id hfind; exact hid)
          (by rw [hfind]; rfl)]
        rfl
    | none =>
        have hrow : (Financial.save db.order
            (paymentDefaults db.order)).store.order_id = db.order.id := rfl
        have hsome : ({ db with financials := db.financials ++
            [(Financial.save db.order (paymentDefaults db.order)).store] } :
              Db).findFinancial.isSome = true := by
          unfold Db.findFinancial at hfind ⊢
          simp [List.find?_append, hfind, List.find?, hrow]
        rw [update_payment_status_full, getOrCreateFinancial_of_none hfind]
        dsimp only
        rw [paymentSaveAndLog_findFinancial
          (Financial.save db.order (paymentDefaults db.order)).payment_status
          (.markedAsPaid user)
          { Financial.save db.order (paymentDefaults db.order) with
            payment_status := "paid" }
          { db with financials := db.financials ++
            [(Financial.save db.order (paymentDefaults db.order)).store] }
          rfl hsome]
        rfl

/-- C6 witness: amount −1 is rejected; a full payment answers `paid`. -/
theorem C6_apply_payment_witness :
    (update_payment_status "u" false (.value (-1)) 0 c4Db).1 =
      .failure "Amount must be positive" 400 ∧
    (update_payment_status "u" true .missing 0 c4Db).1 = .success "paid" :=
  ⟨(C6_apply_payment "u" 0 c4Db).1 (-1) (by norm_num),
   ((C6_apply_payment "u" 0 c4Db).2 .missing).1⟩

/-- C7 (amended): when `update_payment_status` or `update_financials`
answers a validation failure, the order and the event log are untouched and
no existing Financial row is modified; the one mutation that may still have
happened is the lazy `get_or_create` that runs before validation, inserting
the defaults row when the order had no Financial yet. -/
theorem C7_rejection_mutation_scope (user : String) (now : Nat) (db : Db) :
    (∀ (fp : Bool) (pa : DecimalParam) (er : String) (code : Nat),
      (update_payment_status user fp pa now db).1 = .failure er code →
      (update_payment_status user fp pa now db).2.order = db.order ∧
      (update_payment_status user fp pa now db).2.events = db.events ∧
      ((update_payment_status user fp pa now db).2 = db ∨
        (db.findFinancial = none ∧
          (update_payment_status user fp pa now db).2 =
            { db with financials := db.financials ++
              [(Financial.save db.order (paymentDefaults db.order)).store] }))) ∧
    (∀ (fu dr cl : DecimalParam) (er : String) (code : Nat),
      (update_financials user fu dr cl db).1 = .failure er code →
      (update_financials user fu dr cl db).2.order = db.order ∧
      (update_financials user fu dr cl db).2.events = db.events ∧
      ((update_financials user fu dr cl db).2 = db ∨
        (db.findFinancial = none ∧
          (update_financials user fu dr cl db).2 =
            { db with financials := db.financials ++
              [(Financial.save db.order
                (financialsDefaults db.order)).store] }))) := by
  constructor
  · intro fp pa er code h
    have hst := update_payment_status_fail_state user fp pa now db er code h
    cases hfind : db.findFinancial with
    | some g =>
        rw [getOrCreateFinancial_of_found hfind] at hst
        exact ⟨by rw [hst], by rw [hst], Or.inl (by rw [hst])⟩
    | none =>
        rw [getOrCreateFinancial_of_none hfind] at hst
        exact ⟨by rw [hst], by rw [hst], Or.inr ⟨rfl, by rw [hst]⟩⟩
  · intro fu dr cl er code h
    have hst := update_financials_fail_state user fu dr cl db er code h
    cases hfind : db.findFinancial with
    | some g =>
        rw [getOrCreateFinancial_of_found hfind] at hst
        exact ⟨by rw [hst], by rw [hst], Or.inl (by rw [hst])⟩
    | none =>
        rw [getOrCreateFinancial_of_none hfind] at hst
        exact ⟨by rw [hst], by rw [hst], Or.inr ⟨rfl, by rw [hst]⟩⟩

/-- C7 witness: a rejected non-positive partial payment on an order that
already has a Financial row leaves the whole state exactly as it was. -/
theorem C7_rejection_mutation_scope_witness :
    (update_payment_status "u" false (.value (-3)) 0 c4Db).2 = c4Db := by
  have hfail : (update_payment_status "u" false (.value (-3)) 0 c4Db).1 =
      .failure "Amount must be positive" 400 := by
    rw [update_payment_status_value, if_pos (by norm_num : (-3:ℚ) ≤ 0)]
  have h := ((C7_rejection_mutation_scope "u" 0 c4Db).1 false (.value (-3))
    "Amount must be positive" 400 hfail).2.2
  rcases h with h | ⟨hn, _⟩
  · exact h
  · rw [show c4Db.findFinancial = some c4Financial from rfl] at hn
    exact Option.noConfusion hn

/-- C7 counterexample: on an order with no Financial row, the rejected
request still creates one — refuting "no Financial row is created". -/
theorem C7_lazy_create_counterexample :
    (update_payment_status "u" false (.value (-5)) 0 c3Db).1 =
      .failure "Amount must be positive" 400 ∧
    c3Db.financials = [] ∧
    (update_payment_status "u" false (.value (-5)) 0 c3Db).2.financials ≠ [] := by
  have hnone : c3Db.findFinancial = none := rfl
  refine ⟨?_, rfl, ?_⟩
  · rw [update_payment_status_value, if_pos (by norm_num : (-5:ℚ) ≤ 0)]
  · rw [update_payment_status_value, if_pos (by norm_num : (-5:ℚ) ≤ 0)]
    rw [getOrCreateFinancial_of_none hnone]
    simp [c3Db]

/-- C10: the cost-update handler writes an `OrderEvent` whose `event_type`
`financials_updated` is not among the declared `OrderEvent.EventType`
choices (the `CharField` choices are not enforced on save, so the row is
created anyway), while the status and payment handlers use declared types —
the code contradicts its own event-type enum. -/
theorem C10_event_type_outside_enum_code_bug :
    ((update_financials "u" (.value 0) (.value 4000) (.value 10000)
      c4Db).2.events.map OrderEvent.event_type) = ["financials_updated"] ∧
    "financials_updated" ∉ eventTypeChoices ∧
    "status_changed" ∈ eventTypeChoices ∧
    "payment_updated" ∈ eventTypeChoices := by
  refine ⟨?_, by decide, by decide, by decide⟩
  simp only [update_financials, getOrCreateFinancial_of_found
    (show c4Db.findFinancial = some c4Financial from rfl), DecimalParam.parse]
  rw [if_pos (Or.inr (by norm_num [c4Financial]))]
  rfl
